import Mathlib

/-!
Shallow embedding of the spatial-alignment notebook
`src/thredds/aorc-adding-spatial-metadata.ipynb`.

The notebook extracts subset offsets from a free-text `history` attribute
with `re.search` on the patterns `west_east,(\d+),(\d+)` and
`south_north,(\d+),(\d+)`, slices the reference template's coordinate
arrays with Python slice arithmetic (including the row-axis reversal),
builds a meshgrid, transforms it pointwise to geographic coordinates,
renames the dimensions, and annotates the dataset with coordinates and
attributes.  Strings are embedded as `List Char`, Python integers as
`Int`, and Python slice semantics (negative indices, clamping) are
modelled exactly.
-/

/-- Characters of a string literal, for readable concrete inputs. -/
def strL (s : String) : List Char := s.data

/-- The axis token of the column-axis pattern `west_east,(\d+),(\d+)`. -/
def axisWE : List Char := strL "west_east"

/-- The axis token of the row-axis pattern `south_north,(\d+),(\d+)`. -/
def axisSN : List Char := strL "south_north"

/-- The message printed by `pattern_lookup` when `re.search` finds nothing. -/
def noMatchMsg : List Char := strL "No match found."

/-- Consume a literal prefix: `afterLit p s = some r` iff `s = p ++ r`. -/
def afterLit : List Char → List Char → Option (List Char)
  | [], s => some s
  | _ :: _, [] => none
  | p :: ps, c :: cs => if p = c then afterLit ps cs else none

/-- Attempt to match the regex `axis,(\d+),(\d+)` at the start of `s`
(the literal axis token, a comma, one-or-more digits, a comma,
one-or-more digits), returning the full matched substring `group(0)`.
Greedy `\d+` is `takeWhile Char.isDigit` here, since a comma is not a
digit the regex engine cannot backtrack into a different split. -/
def matchPatternAt (axis s : List Char) : Option (List Char) :=
  (afterLit (axis ++ [',']) s).bind (fun r1 =>
    if r1.takeWhile Char.isDigit = [] then none
    else if (r1.dropWhile Char.isDigit).head? = some ',' then
      if (r1.dropWhile Char.isDigit).tail.takeWhile Char.isDigit = [] then none
      else some (axis ++ ',' :: (r1.takeWhile Char.isDigit ++ ',' ::
        (r1.dropWhile Char.isDigit).tail.takeWhile Char.isDigit))
    else none)

/-- `re.search`: try the pattern at every position, left to right, and
return the leftmost full match. -/
def reSearch (axis : List Char) : List Char → Option (List Char)
  | [] => matchPatternAt axis []
  | c :: rest => (matchPatternAt axis (c :: rest)).orElse (fun _ => reSearch axis rest)

/-- The notebook's `pattern_lookup(pattern, s)`: on a match it returns the
matched substring (`f-string` of `match.group(0)`); otherwise it prints
`No match found.` and falls off the end of the function, returning `None`.
The first component is the returned value, the second the printed lines. -/
def pattern_lookup (axis s : List Char) : Option (List Char) × List (List Char) :=
  match reSearch axis s with
  | some m => (some m, [])
  | none => (none, [noMatchMsg])

/-- Python `str.split(',')`: `"a,b,c" ↦ ["a","b","c"]`, `"" ↦ [""]`. -/
def splitOnComma : List Char → List (List Char)
  | [] => [[]]
  | c :: rest =>
    match splitOnComma rest with
    | [] => [[]]
    | grp :: gs => if c = ',' then [] :: grp :: gs else (c :: grp) :: gs

/-- Python `int()` restricted to the digit-only strings produced by the
`(\d+)` capture groups. -/
def intOfDigits (l : List Char) : Int :=
  l.foldl (fun a c => a * 10 + ((c.toNat - 48 : Nat) : Int)) 0

/-- Outcome of the notebook's offset-extraction cell
(`y_index = GSL_southnorth.split(',')[1:]` etc.).  When either lookup
returned `None`, the `.split` attribute access on `None` raises
`AttributeError`; there is no metadata-parse error in the code, but the
spec's `MetadataParseError` vocabulary is included (constructor
`specParseError`, never produced by the embedded code) so that its
absence can be stated. -/
inductive ExtractResult
  | ok : Int × Int → Int × Int → ExtractResult
  | attrErrNone : ExtractResult
  | specParseError : List Char → ExtractResult
deriving DecidableEq

/-- The offset-extraction cell: run both lookups, split the matched
strings on commas, drop the axis token, and convert the two remaining
fields with `int()`.  Returns the `west_east` pair and the `south_north`
pair, or the `AttributeError` outcome when a lookup returned `None`. -/
def extractOffsets (history : List Char) : ExtractResult :=
  match (pattern_lookup axisSN history).1, (pattern_lookup axisWE history).1 with
  | some sn, some we =>
    let yix := (splitOnComma sn).drop 1
    let xix := (splitOnComma we).drop 1
    ExtractResult.ok
      (intOfDigits (xix.headD []), intOfDigits ((xix.drop 1).headD []))
      (intOfDigits (yix.headD []), intOfDigits ((yix.drop 1).headD []))
  | _, _ => ExtractResult.attrErrNone

/-- Effective bound of a Python slice index for a sequence of length `n`:
negative indices count from the end, and everything is clamped to
`[0, n]`. -/
def sliceBound (n : Nat) (i : Int) : Nat :=
  if i < 0 then (i + n).toNat else min i.toNat n

/-- Python slice `l[a : b]`. -/
def pySlice {α : Type} (l : List α) (a b : Int) : List α :=
  (l.take (sliceBound l.length b)).drop (sliceBound l.length a)

/-- The column slice `x = ds_meta.x[int(x_index[0]) : int(x_index[1]) + 1]`. -/
def xSub (colCoords : List Int) (cs ce : Int) : List Int :=
  pySlice colCoords cs (ce + 1)

/-- The row slice
`y = ds_meta.y[leny - int(y_index[1]) - 1 : leny - int(y_index[0])]`,
with `leny = len(ds_meta.y)`. -/
def ySub (rowCoords : List Int) (rs re : Int) : List Int :=
  pySlice rowCoords ((rowCoords.length : Int) - re - 1) ((rowCoords.length : Int) - rs)

/-- The slicing cell run after extraction.  Note that the target
dataset's dimension sizes are not inputs: the code performs no
dimension-mismatch check of any kind. -/
def runSlice (rowCoords colCoords : List Int) (history : List Char) :
    Option (List Int × List Int) :=
  match extractOffsets history with
  | ExtractResult.ok (x0, x1) (y0, y1) => some (xSub colCoords x0 x1, ySub rowCoords y0 y1)
  | _ => none

/-- First result of `numpy.meshgrid(x, y)`: `X[i][j] = x[j]`, shape
`(len y, len x)`. -/
def meshX {α β : Type} (x : List α) (y : List β) : List (List α) :=
  y.map (fun _ => x)

/-- Second result of `numpy.meshgrid(x, y)`: `Y[i][j] = y[i]`. -/
def meshY {α β : Type} (x : List α) (y : List β) : List (List β) :=
  y.map (fun b => x.map (fun _ => b))

/-- `transformer.transform(X, Y)` applied elementwise: the numeric map
itself is pyproj library code, abstracted as `f`; the elementwise
application and the resulting shapes are the notebook's. -/
def transformGrid {α β γ δ : Type} (f : α → β → γ × δ)
    (X : List (List α)) (Y : List (List β)) :
    List (List γ) × List (List δ) :=
  (List.zipWith (fun xr yr => List.zipWith (fun p q => (f p q).1) xr yr) X Y,
   List.zipWith (fun xr yr => List.zipWith (fun p q => (f p q).2) xr yr) X Y)

/-- `(List.range n).map`, the integer coordinate array `[0, …, n-1]` used
as a synthetic reference axis. -/
def intRange (n : Nat) : List Int :=
  (List.range n).map (fun k => (k : Int))

example : pattern_lookup axisWE (strL "abc west_east,10,12 def") =
    (some (strL "west_east,10,12"), []) := by decide

example : pattern_lookup axisWE (strL "nothing here") = (none, [noMatchMsg]) := by decide

example : extractOffsets (strL "west_east,10,12 south_north,20,23") =
    ExtractResult.ok (10, 12) (20, 23) := by decide

example : ySub [0, 1, 2, 3, 4, 5, 6, 7, 8, 9] 2 5 = [4, 5, 6, 7] := by decide

example : xSub (intRange 20) 10 12 = [10, 11, 12] := by decide

example : ySub (intRange 30) 20 23 = [6, 7, 8, 9] := by decide

/-! ### Structural lemmas about the embedded regex search and split -/

lemma splitOnComma_ne_nil : ∀ l : List Char, splitOnComma l ≠ []
  | [] => by simp [splitOnComma]
  | c :: rest => by
    cases h : splitOnComma rest with
    | nil => simp [splitOnComma, h]
    | cons g gs => by_cases hc : c = ',' <;> simp [splitOnComma, h, hc]

lemma splitOnComma_comma (r : List Char) :
    splitOnComma (',' :: r) = [] :: splitOnComma r := by
  cases h : splitOnComma r with
  | nil => exact absurd h (splitOnComma_ne_nil r)
  | cons g gs => simp [splitOnComma, h]

lemma splitOnComma_head (c : Char) (r : List Char) (hc : ¬ c = ',') :
    ∃ g gs, splitOnComma r = g :: gs ∧ splitOnComma (c :: r) = (c :: g) :: gs := by
  cases h : splitOnComma r with
  | nil => exact absurd h (splitOnComma_ne_nil r)
  | cons g gs => exact ⟨g, gs, rfl, by simp [splitOnComma, h, hc]⟩

lemma splitOnComma_append (a r : List Char) (ha : ∀ c ∈ a, ¬ c = ',') :
    splitOnComma (a ++ ',' :: r) = a :: splitOnComma r := by
  induction a with
  | nil => simpa using splitOnComma_comma r
  | cons c a ih =>
    have hc : ¬ c = ',' := ha c (by simp)
    have ih2 := ih (fun d hd => ha d (by simp [hd]))
    obtain ⟨g, gs, h1, h2⟩ := splitOnComma_head c (a ++ ',' :: r) hc
    rw [ih2] at h1
    cases h1
    simpa using h2

lemma splitOnComma_noComma (a : List Char) (ha : ∀ c ∈ a, ¬ c = ',') :
    splitOnComma a = [a] := by
  induction a with
  | nil => rfl
  | cons c a ih =>
    have hc : ¬ c = ',' := ha c (by simp)
    have ih2 := ih (fun d hd => ha d (by simp [hd]))
    obtain ⟨g, gs, h1, h2⟩ := splitOnComma_head c a hc
    rw [ih2] at h1
    cases h1
    simpa using h2

lemma digit_ne_comma (c : Char) (h : Char.isDigit c = true) : ¬ c = ',' := by
  intro e
  subst e
  exact absurd h (by decide)

/-- Every successful `matchPatternAt` result is the axis token, a comma,
a nonempty digit group, a comma, a nonempty digit group. -/
lemma matchPatternAt_shape {axis s m : List Char}
    (h : matchPatternAt axis s = some m) :
    ∃ d1 d2, d1 ≠ [] ∧ d2 ≠ [] ∧ (∀ c ∈ d1, Char.isDigit c = true) ∧
      (∀ c ∈ d2, Char.isDigit c = true) ∧ m = axis ++ ',' :: (d1 ++ ',' :: d2) := by
  unfold matchPatternAt at h
  cases hA : afterLit (axis ++ [',']) s with
  | none => rw [hA] at h; simp at h
  | some r1 =>
    rw [hA] at h
    simp only [Option.some_bind] at h
    split_ifs at h with h1 h2 h3
    refine ⟨r1.takeWhile Char.isDigit,
      (r1.dropWhile Char.isDigit).tail.takeWhile Char.isDigit, h1, h3, ?_, ?_, ?_⟩
    · exact fun c hc => List.mem_takeWhile_imp hc
    · exact fun c hc => List.mem_takeWhile_imp hc
    · exact (Option.some.inj h).symm

/-- Every successful `reSearch` result has the matched-substring shape. -/
lemma reSearch_shape (axis : List Char) : ∀ (s m : List Char),
    reSearch axis s = some m →
    ∃ d1 d2, d1 ≠ [] ∧ d2 ≠ [] ∧ (∀ c ∈ d1, Char.isDigit c = true) ∧
      (∀ c ∈ d2, Char.isDigit c = true) ∧ m = axis ++ ',' :: (d1 ++ ',' :: d2) := by
  intro s
  induction s with
  | nil =>
    intro m h
    simp only [reSearch] at h
    exact matchPatternAt_shape h
  | cons c rest ih =>
    intro m h
    simp only [reSearch] at h
    cases hM : matchPatternAt axis (c :: rest) with
    | none =>
      rw [hM] at h
      simp only [Option.orElse] at h
      exact ih m h
    | some m2 =>
      rw [hM] at h
      simp only [Option.orElse] at h
      cases h
      exact matchPatternAt_shape hM

/-- Splitting a successful match on commas yields exactly
`[axis, start-digits, end-digits]` (the axis tokens contain no comma). -/
lemma reSearch_fields {axis s m : List Char}
    (hax : ∀ c ∈ axis, ¬ c = ',') (h : reSearch axis s = some m) :
    ∃ d1 d2, d1 ≠ [] ∧ d2 ≠ [] ∧ (∀ c ∈ d1, Char.isDigit c = true) ∧
      (∀ c ∈ d2, Char.isDigit c = true) ∧
      m = axis ++ ',' :: (d1 ++ ',' :: d2) ∧
      splitOnComma m = [axis, d1, d2] := by
  obtain ⟨d1, d2, h1, h2, hd1, hd2, hm⟩ := reSearch_shape axis s m h
  refine ⟨d1, d2, h1, h2, hd1, hd2, hm, ?_⟩
  subst hm
  rw [splitOnComma_append axis _ hax,
      splitOnComma_append d1 _ (fun c hc => digit_ne_comma c (hd1 c hc)),
      splitOnComma_noComma d2 (fun c hc => digit_ne_comma c (hd2 c hc))]

lemma intOfDigits_nonneg (l : List Char) : 0 ≤ intOfDigits l := by
  have key : ∀ (l : List Char) (a : Int), 0 ≤ a →
      0 ≤ l.foldl (fun x c => x * 10 + ((c.toNat - 48 : Nat) : Int)) a := by
    intro l
    induction l with
    | nil => intro a ha; simpa using ha
    | cons c rest ih =>
      intro a ha
      simp only [List.foldl_cons]
      refine ih _ ?_
      have hc : (0 : Int) ≤ ((c.toNat - 48 : Nat) : Int) := Int.natCast_nonneg _
      omega
  exact key l 0 le_rfl

lemma axisWE_noComma : ∀ c ∈ axisWE, ¬ c = ',' := by decide

lemma axisSN_noComma : ∀ c ∈ axisSN, ¬ c = ',' := by decide

lemma pattern_lookup_fst (axis s : List Char) :
    (pattern_lookup axis s).1 = reSearch axis s := by
  unfold pattern_lookup
  cases h : reSearch axis s <;> simp [h]

/-- When both lookups match, the extraction cell reaches the `ok` outcome
and the two returned pairs are the `int()` values of the digit groups of
the respective matched substrings. -/
lemma extractOffsets_ok {history mWE mSN : List Char}
    (hWE : (pattern_lookup axisWE history).1 = some mWE)
    (hSN : (pattern_lookup axisSN history).1 = some mSN) :
    ∃ dx1 dx2 dy1 dy2 : List Char,
      (∀ c ∈ dx1, Char.isDigit c = true) ∧ (∀ c ∈ dx2, Char.isDigit c = true) ∧
      (∀ c ∈ dy1, Char.isDigit c = true) ∧ (∀ c ∈ dy2, Char.isDigit c = true) ∧
      mWE = axisWE ++ ',' :: (dx1 ++ ',' :: dx2) ∧
      mSN = axisSN ++ ',' :: (dy1 ++ ',' :: dy2) ∧
      extractOffsets history =
        ExtractResult.ok (intOfDigits dx1, intOfDigits dx2)
          (intOfDigits dy1, intOfDigits dy2) := by
  obtain ⟨dx1, dx2, _, _, hdx1, hdx2, hmWE, hsWE⟩ :=
    reSearch_fields axisWE_noComma ((pattern_lookup_fst axisWE history) ▸ hWE)
  obtain ⟨dy1, dy2, _, _, hdy1, hdy2, hmSN, hsSN⟩ :=
    reSearch_fields axisSN_noComma ((pattern_lookup_fst axisSN history) ▸ hSN)
  refine ⟨dx1, dx2, dy1, dy2, hdx1, hdx2, hdy1, hdy2, hmWE, hmSN, ?_⟩
  unfold extractOffsets
  rw [hWE, hSN]
  simp [hsWE, hsSN]

/-- Length of a Python slice with in-range non-negative bounds. -/
lemma pySlice_length {α : Type} (l : List α) (a b : Int)
    (ha : 0 ≤ a) (hab : a ≤ b) (hb : b ≤ (l.length : Int)) :
    ((pySlice l a b).length : Int) = b - a := by
  unfold pySlice sliceBound
  simp only [List.length_drop, List.length_take]
  split_ifs <;> omega

lemma xSub_length (colCoords : List Int) (cs ce : Int)
    (h0 : 0 ≤ cs) (h1 : cs ≤ ce) (h2 : ce < (colCoords.length : Int)) :
    ((xSub colCoords cs ce).length : Int) = ce - cs + 1 := by
  unfold xSub
  rw [pySlice_length colCoords cs (ce + 1) h0 (by omega) (by omega)]
  omega

lemma ySub_length (rowCoords : List Int) (rs re : Int)
    (h0 : 0 ≤ rs) (h1 : rs ≤ re) (h2 : re < (rowCoords.length : Int)) :
    ((ySub rowCoords rs re).length : Int) = re - rs + 1 := by
  unfold ySub
  rw [pySlice_length rowCoords _ _ (by omega) (by omega) (by omega)]
  omega

/-- Shape of the elementwise-zipped meshgrid: as many rows as `y`, each
row as long as `x`. -/
lemma meshRows_shape {α β ε : Type} (g : α → β → ε) (x : List α) :
    ∀ y : List β,
      (List.zipWith (fun xr yr => List.zipWith g xr yr) (meshX x y) (meshY x y)).length
        = y.length ∧
      ∀ r ∈ List.zipWith (fun xr yr => List.zipWith g xr yr) (meshX x y) (meshY x y),
        r.length = x.length := by
  intro y
  induction y with
  | nil => simp [meshX, meshY]
  | cons b y ih =>
    simp only [meshX, meshY, List.map_cons, List.zipWith_cons_cons]
    constructor
    · simp [meshX, meshY, ih.1]
    · intro r hr
      rcases List.mem_cons.mp hr with h | h
      · subst h; simp
      · exact ih.2 r h

/-- Shapes of the two arrays returned by the reprojection cell. -/
lemma transformGrid_shape {α β γ δ : Type} (f : α → β → γ × δ) (x : List α) (y : List β) :
    (transformGrid f (meshX x y) (meshY x y)).1.length = y.length ∧
    (∀ r ∈ (transformGrid f (meshX x y) (meshY x y)).1, r.length = x.length) ∧
    (transformGrid f (meshX x y) (meshY x y)).2.length = y.length ∧
    (∀ r ∈ (transformGrid f (meshX x y) (meshY x y)).2, r.length = x.length) :=
  ⟨(meshRows_shape (fun p q => (f p q).1) x y).1,
   (meshRows_shape (fun p q => (f p q).1) x y).2,
   (meshRows_shape (fun p q => (f p q).2) x y).1,
   (meshRows_shape (fun p q => (f p q).2) x y).2⟩

/-! ### Dataset model: dimension renaming and metadata annotation -/

/-- Replace-or-append assignment in an association list, the semantics of
both `xarray.Dataset.assign_coords` for an existing/new coordinate name
and Python `dict.__setitem__` for `attrs`: an existing key keeps its
position and gets the new value, a new key is appended. -/
def setK {K V : Type} [DecidableEq K] (k : K) (v : V) : List (K × V) → List (K × V)
  | [] => [(k, v)]
  | (k2, v2) :: rest => if k2 = k then (k2, v) :: rest else (k2, v2) :: setK k v rest

def lookupK {K V : Type} [DecidableEq K] (k : K) : List (K × V) → Option V
  | [] => none
  | (k2, v2) :: rest => if k2 = k then some v2 else lookupK k rest

/-- A sequence of assignments, run left to right. -/
def applySets {K V : Type} [DecidableEq K] (ps : List (K × V)) (m : List (K × V)) :
    List (K × V) :=
  ps.foldl (fun acc kv => setK kv.1 kv.2 acc) m

lemma setK_of_lookup {K V : Type} [DecidableEq K] (k : K) (v : V) :
    ∀ m : List (K × V), lookupK k m = some v → setK k v m = m := by
  intro m
  induction m with
  | nil => intro h; simp [lookupK] at h
  | cons kv rest ih =>
    intro h
    obtain ⟨k2, v2⟩ := kv
    by_cases hk : k2 = k
    · rw [lookupK, if_pos hk] at h
      rw [setK, if_pos hk]
      cases h
      rfl
    · rw [lookupK, if_neg hk] at h
      rw [setK, if_neg hk, ih h]

lemma lookupK_setK_same {K V : Type} [DecidableEq K] (k : K) (v : V) :
    ∀ m : List (K × V), lookupK k (setK k v m) = some v := by
  intro m
  induction m with
  | nil => simp [setK, lookupK]
  | cons kv rest ih =>
    obtain ⟨k2, v2⟩ := kv
    by_cases hk : k2 = k
    · rw [setK, if_pos hk, lookupK, if_pos hk]
    · rw [setK, if_neg hk, lookupK, if_neg hk]
      exact ih

lemma lookupK_setK_ne {K V : Type} [DecidableEq K] (k k2 : K) (v : V)
    (hne : k2 ≠ k) : ∀ m : List (K × V), lookupK k (setK k2 v m) = lookupK k m := by
  intro m
  induction m with
  | nil => simp [setK, lookupK, hne]
  | cons kv rest ih =>
    obtain ⟨k3, v3⟩ := kv
    by_cases hk : k3 = k2
    · subst hk
      rw [setK, if_pos rfl, lookupK, lookupK, if_neg hne, if_neg hne]
    · rw [setK, if_neg hk, lookupK, lookupK]
      by_cases hk2 : k3 = k
      · rw [if_pos hk2, if_pos hk2]
      · rw [if_neg hk2, if_neg hk2]
        exact ih

lemma applySets_lookup_of_not_mem {K V : Type} [DecidableEq K] (k : K) :
    ∀ (ps m : List (K × V)), k ∉ ps.map Prod.fst →
      lookupK k (applySets ps m) = lookupK k m := by
  intro ps
  induction ps with
  | nil => intro m _; rfl
  | cons kv rest ih =>
    intro m hk
    rw [applySets, List.foldl_cons]
    have h1 : kv.1 ≠ k := fun e => hk (by simp [e.symm])
    have h2 : k ∉ rest.map Prod.fst := fun e => hk (by simp [e])
    rw [show List.foldl (fun acc kv => setK kv.1 kv.2 acc) (setK kv.1 kv.2 m) rest =
          applySets rest (setK kv.1 kv.2 m) from rfl,
        ih (setK kv.1 kv.2 m) h2, lookupK_setK_ne k kv.1 kv.2 h1]

lemma applySets_fix {K V : Type} [DecidableEq K] :
    ∀ (ps m : List (K × V)), (∀ kv ∈ ps, lookupK kv.1 m = some kv.2) →
      applySets ps m = m := by
  intro ps
  induction ps with
  | nil => intro m _; rfl
  | cons kv rest ih =>
    intro m h
    rw [applySets, List.foldl_cons, setK_of_lookup kv.1 kv.2 m (h kv (by simp))]
    exact ih m (fun kv2 h2 => h kv2 (by simp [h2]))

lemma applySets_lookup_mem {K V : Type} [DecidableEq K] :
    ∀ (ps m : List (K × V)), (ps.map Prod.fst).Nodup →
      ∀ kv ∈ ps, lookupK kv.1 (applySets ps m) = some kv.2 := by
  intro ps
  induction ps with
  | nil => intro m _ kv h; simp at h
  | cons kv0 rest ih =>
    intro m hnd kv h
    rw [List.map_cons, List.nodup_cons] at hnd
    rw [applySets, List.foldl_cons]
    rcases List.mem_cons.mp h with h1 | h1
    · subst h1
      rw [show List.foldl (fun acc kv => setK kv.1 kv.2 acc) (setK kv.1 kv.2 m) rest =
            applySets rest (setK kv.1 kv.2 m) from rfl,
          applySets_lookup_of_not_mem kv.1 rest _ hnd.1, lookupK_setK_same]
    · exact ih (setK kv0.1 kv0.2 m) hnd.2 kv h1

/-- Re-running an assignment sequence with key-distinct entries changes
nothing: the second pass replaces each key in place with the value it
already has. -/
lemma applySets_idem {K V : Type} [DecidableEq K] (ps m : List (K × V))
    (hnd : (ps.map Prod.fst).Nodup) :
    applySets ps (applySets ps m) = applySets ps m :=
  applySets_fix ps (applySets ps m) (fun kv h => applySets_lookup_mem ps m hnd kv h)

/-- Attribute values occurring in the notebook: strings and the numeric
cell-size `1000.`. -/
inductive AttrVal
  | sv : List Char → AttrVal
  | nv : Int → AttrVal
deriving DecidableEq

/-- The slice of `xarray.Dataset` state the annotation cells touch:
dimension names, named coordinates (each with its dimension list and
data, the data type `α` abstracting the float arrays), and per-coordinate
attributes keyed by (coordinate name, attribute key). -/
structure XDataset (α : Type) where
  dims : List (List Char)
  coords : List (List Char × (List (List Char) × α))
  coordAttrs : List ((List Char × List Char) × AttrVal)
deriving DecidableEq

/-- The four `assign_coords` calls, in notebook order: `lon` and `lat`
are 2-D on dims `(y, x)`, `x` and `y` are the 1-D projected coordinates. -/
def coordAssigns {α : Type} (lonv latv xv yv : α) :
    List (List Char × (List (List Char) × α)) :=
  [ (strL "lon", ([strL "y", strL "x"], lonv)),
    (strL "lat", ([strL "y", strL "x"], latv)),
    (strL "x", ([strL "x"], xv)),
    (strL "y", ([strL "y"], yv)) ]

/-- The fourteen CF attribute assignments of the coordinate-attrs cell,
in notebook order. -/
def attrAssigns : List ((List Char × List Char) × AttrVal) :=
  [ ((strL "x", strL "axis"), AttrVal.sv (strL "X")),
    ((strL "x", strL "standard_name"), AttrVal.sv (strL "projection_x_coordinate")),
    ((strL "x", strL "long_name"), AttrVal.sv (strL "x-coordinate in projected coordinate system")),
    ((strL "x", strL "resolution"), AttrVal.nv 1000),
    ((strL "y", strL "axis"), AttrVal.sv (strL "Y")),
    ((strL "y", strL "standard_name"), AttrVal.sv (strL "projection_y_coordinate")),
    ((strL "y", strL "long_name"), AttrVal.sv (strL "y-coordinate in projected coordinate system")),
    ((strL "y", strL "resolution"), AttrVal.nv 1000),
    ((strL "lon", strL "units"), AttrVal.sv (strL "degrees_east")),
    ((strL "lon", strL "standard_name"), AttrVal.sv (strL "longitude")),
    ((strL "lon", strL "long_name"), AttrVal.sv (strL "longitude")),
    ((strL "lat", strL "units"), AttrVal.sv (strL "degrees_north")),
    ((strL "lat", strL "standard_name"), AttrVal.sv (strL "latitude")),
    ((strL "lat", strL "long_name"), AttrVal.sv (strL "latitude")) ]

/-- The metadata-annotation step: the `assign_coords` cell followed by
the coordinate-attrs cell.  Dimensions are untouched. -/
def annotateDs {α : Type} (ds : XDataset α) (lonv latv xv yv : α) : XDataset α :=
  { dims := ds.dims,
    coords := applySets (coordAssigns lonv latv xv yv) ds.coords,
    coordAttrs := applySets attrAssigns ds.coordAttrs }

/-- Per-name renaming performed by
`ds.rename_dims(south_north='y', west_east='x', Time='time')`. -/
def renameFn (d : List Char) : List Char :=
  if d = strL "south_north" then strL "y"
  else if d = strL "west_east" then strL "x"
  else if d = strL "Time" then strL "time"
  else d

/-- `rename_dims` on the dimension-name list: all three keys must be
present (xarray raises `ValueError` otherwise, modelled as `none`), and
each dimension name is rewritten by `renameFn`. -/
def rename_dims (dims : List (List Char)) : Option (List (List Char)) :=
  if strL "south_north" ∈ dims ∧ strL "west_east" ∈ dims ∧ strL "Time" ∈ dims then
    some (dims.map renameFn)
  else none

example : rename_dims [strL "Time", strL "south_north", strL "west_east"] =
    some [strL "time", strL "y", strL "x"] := by decide

/-! ### Shared helper lemmas for the claim theorems -/

lemma pattern_lookup_none {axis s : List Char} (h : reSearch axis s = none) :
    pattern_lookup axis s = (none, [noMatchMsg]) := by
  unfold pattern_lookup
  rw [h]

lemma pattern_lookup_found {axis s m : List Char} (h : reSearch axis s = some m) :
    pattern_lookup axis s = (some m, []) := by
  unfold pattern_lookup
  rw [h]

lemma extractOffsets_attrErrWE {h : List Char}
    (hWE : (pattern_lookup axisWE h).1 = none) :
    extractOffsets h = ExtractResult.attrErrNone := by
  unfold extractOffsets
  rw [hWE]
  cases h2 : (pattern_lookup axisSN h).1 <;> rfl

lemma extractOffsets_attrErrSN {h : List Char}
    (hSN : (pattern_lookup axisSN h).1 = none) :
    extractOffsets h = ExtractResult.attrErrNone := by
  unfold extractOffsets
  rw [hSN]

/-! ### Claim theorems -/

/-- C1, counterexample: on a provenance string without the offset
patterns the code produces no `MetadataParseError` value naming an axis.
`pattern_lookup` prints the constant, axis-independent message
`No match found.` and returns `None` for both axes, and the extraction
cell ends in the `AttributeError` outcome, not a parse-error outcome. -/
theorem claim_C1_cex :
    pattern_lookup axisWE (strL "AORC v1.0 regridded data") = (none, [noMatchMsg]) ∧
    pattern_lookup axisSN (strL "AORC v1.0 regridded data") = (none, [noMatchMsg]) ∧
    extractOffsets (strL "AORC v1.0 regridded data") = ExtractResult.attrErrNone ∧
    extractOffsets (strL "AORC v1.0 regridded data") ≠
      ExtractResult.specParseError axisWE ∧
    extractOffsets (strL "AORC v1.0 regridded data") ≠
      ExtractResult.specParseError axisSN := by decide

/-- C1, amended: when an axis-labeled offset pattern is absent,
`pattern_lookup` prints the axis-independent message `No match found.`
and returns `None`; the caller's subsequent `.split` on the missing value
raises `AttributeError`, so slicing is indeed never reached — but no
`MetadataParseError` naming the axis is produced. -/
theorem claim_C1_amended (h : List Char)
    (hmiss : reSearch axisWE h = none ∨ reSearch axisSN h = none) :
    (reSearch axisWE h = none → pattern_lookup axisWE h = (none, [noMatchMsg])) ∧
    (reSearch axisSN h = none → pattern_lookup axisSN h = (none, [noMatchMsg])) ∧
    extractOffsets h = ExtractResult.attrErrNone := by
  refine ⟨fun h1 => pattern_lookup_none h1, fun h1 => pattern_lookup_none h1, ?_⟩
  rcases hmiss with h1 | h1
  · exact extractOffsets_attrErrWE (by rw [pattern_lookup_fst, h1])
  · exact extractOffsets_attrErrSN (by rw [pattern_lookup_fst, h1])

/-- Witness for C1 at a concrete pattern-free provenance string. -/
theorem claim_C1_witness :
    (reSearch axisWE (strL "history: AORC rechunked") = none →
      pattern_lookup axisWE (strL "history: AORC rechunked") = (none, [noMatchMsg])) ∧
    (reSearch axisSN (strL "history: AORC rechunked") = none →
      pattern_lookup axisSN (strL "history: AORC rechunked") = (none, [noMatchMsg])) ∧
    extractOffsets (strL "history: AORC rechunked") = ExtractResult.attrErrNone :=
  claim_C1_amended (strL "history: AORC rechunked") (Or.inl (by decide))

/-- C2: the row slice is `row_coords[H_ref - row_end - 1 : H_ref - row_start]`,
of length `row_end - row_start + 1` for in-range offsets, and on the
synthetic array `[0,…,9]` with offsets `(2,5)` it equals `[4,5,6,7]`,
of length 4. -/
theorem claim_C2_row_slice :
    (∀ (rowCoords : List Int) (rs re : Int), 0 ≤ rs → rs ≤ re →
      re < (rowCoords.length : Int) →
      ySub rowCoords rs re =
        pySlice rowCoords ((rowCoords.length : Int) - re - 1)
          ((rowCoords.length : Int) - rs) ∧
      ((ySub rowCoords rs re).length : Int) = re - rs + 1) ∧
    ySub [0, 1, 2, 3, 4, 5, 6, 7, 8, 9] 2 5 = [4, 5, 6, 7] ∧
    (ySub [0, 1, 2, 3, 4, 5, 6, 7, 8, 9] 2 5).length = 4 :=
  ⟨fun rowCoords rs re h0 h1 h2 => ⟨rfl, ySub_length rowCoords rs re h0 h1 h2⟩,
   by decide, by decide⟩

/-- Witness for C2 at the synthetic reference array. -/
theorem claim_C2_witness :
    ((ySub [0, 1, 2, 3, 4, 5, 6, 7, 8, 9] 2 5).length : Int) = 5 - 2 + 1 :=
  (claim_C2_row_slice.1 [0, 1, 2, 3, 4, 5, 6, 7, 8, 9] 2 5
    (by decide) (by decide) (by decide)).2

/-- C3, code-bug evidence: with a target grid of row size 4 and column
size 5, offsets `west_east,10,12` yield `x_sub` of length 3 ≠ 5, yet the
slicing cell completes and hands the mismatched arrays on — no
`DimensionMismatchError` exists anywhere in the code (the slicing step
does not even receive the target dimension sizes as input). -/
theorem claim_C3_no_dim_check :
    runSlice (intRange 30) (intRange 20)
        (strL "Subset: west_east,10,12 south_north,20,23 applied") =
      some ([10, 11, 12], [6, 7, 8, 9]) ∧
    ([10, 11, 12] : List Int).length = 3 ∧ (3 : Nat) ≠ 5 := by decide

/-- C4, counterexample: a provenance string containing both axis-labeled
offset substrings whose digits are in decreasing order is extracted
as-is; the returned pairs violate `start ≤ end`. -/
theorem claim_C4_cex :
    extractOffsets (strL "west_east,12,10 south_north,9,4") =
      ExtractResult.ok (12, 10) (9, 4) ∧
    ¬ ((12 : Int) ≤ 10) ∧ ¬ ((9 : Int) ≤ 4) := by decide

/-- C4, amended: for every provenance string in which both axis-labeled
patterns match, extraction returns an ordered pair of non-negative
integers for each axis; `start ≤ end` holds only when the digits in the
string happen to satisfy it and is not enforced by the code. -/
theorem claim_C4_amended (history mWE mSN : List Char)
    (hWE : (pattern_lookup axisWE history).1 = some mWE)
    (hSN : (pattern_lookup axisSN history).1 = some mSN) :
    ∃ x0 x1 y0 y1 : Int,
      extractOffsets history = ExtractResult.ok (x0, x1) (y0, y1) ∧
      0 ≤ x0 ∧ 0 ≤ x1 ∧ 0 ≤ y0 ∧ 0 ≤ y1 := by
  obtain ⟨dx1, dx2, dy1, dy2, _, _, _, _, _, _, hok⟩ := extractOffsets_ok hWE hSN
  exact ⟨_, _, _, _, hok, intOfDigits_nonneg dx1, intOfDigits_nonneg dx2,
    intOfDigits_nonneg dy1, intOfDigits_nonneg dy2⟩

/-- Witness for C4 at a concrete well-formed provenance string. -/
theorem claim_C4_witness :
    ∃ x0 x1 y0 y1 : Int,
      extractOffsets (strL "west_east,3,7 south_north,5,8") =
        ExtractResult.ok (x0, x1) (y0, y1) ∧
      0 ≤ x0 ∧ 0 ≤ x1 ∧ 0 ≤ y0 ∧ 0 ≤ y1 :=
  claim_C4_amended (strL "west_east,3,7 south_north,5,8")
    (strL "west_east,3,7") (strL "south_north,5,8") (by decide) (by decide)

/-- C5, end-to-end: the provenance string with `west_east,10,12` and
`south_north,20,23` against a 30-row / 20-column reference yields
`x_sub = [10,11,12]` (length 3), `y_sub = [6,7,8,9]` (rows 6..9, length
4, matching the target's row size), and a geographic coordinate grid of
shape (4,3), whatever pointwise transform the projection library
applies. -/
theorem claim_C5_end_to_end :
    extractOffsets (strL "Subset: west_east,10,12 south_north,20,23 applied") =
      ExtractResult.ok (10, 12) (20, 23) ∧
    xSub (intRange 20) 10 12 = [10, 11, 12] ∧
    (xSub (intRange 20) 10 12).length = 3 ∧
    ySub (intRange 30) 20 23 = [6, 7, 8, 9] ∧
    (ySub (intRange 30) 20 23).length = 4 ∧
    ∀ f : Int → Int → Int × Int,
      (transformGrid f (meshX (xSub (intRange 20) 10 12) (ySub (intRange 30) 20 23))
        (meshY (xSub (intRange 20) 10 12) (ySub (intRange 30) 20 23))).1.length = 4 ∧
      (∀ r ∈ (transformGrid f (meshX (xSub (intRange 20) 10 12) (ySub (intRange 30) 20 23))
        (meshY (xSub (intRange 20) 10 12) (ySub (intRange 30) 20 23))).1, r.length = 3) ∧
      (transformGrid f (meshX (xSub (intRange 20) 10 12) (ySub (intRange 30) 20 23))
        (meshY (xSub (intRange 20) 10 12) (ySub (intRange 30) 20 23))).2.length = 4 ∧
      (∀ r ∈ (transformGrid f (meshX (xSub (intRange 20) 10 12) (ySub (intRange 30) 20 23))
        (meshY (xSub (intRange 20) 10 12) (ySub (intRange 30) 20 23))).2, r.length = 3) := by
  refine ⟨by decide, by decide, by decide, by decide, by decide, fun f => ?_⟩
  have h := transformGrid_shape f (xSub (intRange 20) 10 12) (ySub (intRange 30) 20 23)
  have hx : (xSub (intRange 20) 10 12).length = 3 := by decide
  have hy : (ySub (intRange 30) 20 23).length = 4 := by decide
  rw [hx, hy] at h
  exact h

/-- Witness for C5's shape clause at a concrete transform and row. -/
theorem claim_C5_witness :
    (transformGrid (fun a b : Int => (a, b))
        (meshX (xSub (intRange 20) 10 12) (ySub (intRange 30) 20 23))
        (meshY (xSub (intRange 20) 10 12) (ySub (intRange 30) 20 23))).1.length = 4 ∧
    ([10, 11, 12] : List Int).length = 3 :=
  ⟨(claim_C5_end_to_end.2.2.2.2.2 (fun a b => (a, b))).1,
   (claim_C5_end_to_end.2.2.2.2.2 (fun a b => (a, b))).2.1 [10, 11, 12] (by decide)⟩

/-- C6: for every pair of 1-D coordinate arrays the reprojection step
produces two 2-D arrays, each with `len y_sub` rows of `len x_sub`
entries, aligned with the target's (row, column) axes. -/
theorem claim_C6_shapes {α β γ δ : Type} (f : α → β → γ × δ)
    (xsub : List α) (ysub : List β) :
    (transformGrid f (meshX xsub ysub) (meshY xsub ysub)).1.length = ysub.length ∧
    (∀ r ∈ (transformGrid f (meshX xsub ysub) (meshY xsub ysub)).1,
      r.length = xsub.length) ∧
    (transformGrid f (meshX xsub ysub) (meshY xsub ysub)).2.length = ysub.length ∧
    (∀ r ∈ (transformGrid f (meshX xsub ysub) (meshY xsub ysub)).2,
      r.length = xsub.length) :=
  transformGrid_shape f xsub ysub

/-- Witness for C6 at concrete arrays and transform. -/
theorem claim_C6_witness :
    (transformGrid (fun a b : Int => (a + b, a - b))
        (meshX [1, 2] [7]) (meshY [1, 2] [7])).1.length = 1 ∧
    ([8, 9] : List Int).length = 2 :=
  ⟨(claim_C6_shapes (fun a b : Int => (a + b, a - b)) [1, 2] [7]).1,
   (claim_C6_shapes (fun a b : Int => (a + b, a - b)) [1, 2] [7]).2.1 [8, 9] (by decide)⟩

/-- C8: the annotation step (the `assign_coords` cell followed by the
attrs cell) is idempotent — applying it twice with identical inputs
yields the very same dataset as applying it once, and it never touches
the dimension list. -/
theorem claim_C8_idempotent {α : Type} (ds : XDataset α) (lonv latv xv yv : α) :
    annotateDs (annotateDs ds lonv latv xv yv) lonv latv xv yv =
      annotateDs ds lonv latv xv yv ∧
    (annotateDs ds lonv latv xv yv).dims = ds.dims := by
  have hc : ((coordAssigns lonv latv xv yv).map Prod.fst).Nodup := by
    simp only [coordAssigns, List.map_cons, List.map_nil]
    decide
  have ha : (attrAssigns.map Prod.fst).Nodup := by decide
  refine ⟨?_, rfl⟩
  unfold annotateDs
  simp only
  rw [applySets_idem _ ds.coords hc, applySets_idem _ ds.coordAttrs ha]

/-- Witness for C8 at a concrete dataset. -/
theorem claim_C8_witness :
    annotateDs (annotateDs (XDataset.mk [strL "time", strL "y", strL "x"] [] [])
        (0 : Int) 1 2 3) 0 1 2 3 =
      annotateDs (XDataset.mk [strL "time", strL "y", strL "x"] [] []) 0 1 2 3 :=
  (claim_C8_idempotent (XDataset.mk [strL "time", strL "y", strL "x"] [] []) 0 1 2 3).1

/-- C9: `rename_dims` maps `south_north ↦ y`, `west_east ↦ x`,
`Time ↦ time`, leaves every other dimension name unchanged, and
introduces no new dimensions (the output has exactly the renamed input
dimensions). -/
theorem claim_C9_rename (dims out : List (List Char))
    (h : rename_dims dims = some out) :
    out = dims.map renameFn ∧
    out.length = dims.length ∧
    renameFn (strL "south_north") = strL "y" ∧
    renameFn (strL "west_east") = strL "x" ∧
    renameFn (strL "Time") = strL "time" ∧
    ∀ d : List Char, d ≠ strL "south_north" → d ≠ strL "west_east" →
      d ≠ strL "Time" → renameFn d = d := by
  have hout : out = dims.map renameFn := by
    unfold rename_dims at h
    split_ifs at h
    exact (Option.some.inj h).symm
  refine ⟨hout, by rw [hout, List.length_map], by decide, by decide, by decide, ?_⟩
  intro d h1 h2 h3
  unfold renameFn
  rw [if_neg h1, if_neg h2, if_neg h3]

/-- Witness for C9 at the notebook's actual dimension list. -/
theorem claim_C9_witness :
    [strL "time", strL "y", strL "x"] =
      [strL "Time", strL "south_north", strL "west_east"].map renameFn :=
  (claim_C9_rename [strL "Time", strL "south_north", strL "west_east"]
    [strL "time", strL "y", strL "x"] (by decide)).1

/-- C10: the actual failure and success behavior of `pattern_lookup` and
its caller.  When the pattern is absent, `pattern_lookup` prints
`No match found.` and returns `None`, and the caller's `.split` on that
`None` ends in the `AttributeError` outcome — not a named metadata
error.  When a match exists, `pattern_lookup` returns the full matched
substring — the axis token plus both integers as one comma-separated
string, not an integer pair. -/
theorem claim_C10_behavior (s : List Char) :
    (reSearch axisWE s = none →
      pattern_lookup axisWE s = (none, [noMatchMsg]) ∧
      extractOffsets s = ExtractResult.attrErrNone) ∧
    (∀ m : List Char, reSearch axisWE s = some m →
      pattern_lookup axisWE s = (some m, []) ∧
      ∃ d1 d2, d1 ≠ [] ∧ d2 ≠ [] ∧ (∀ c ∈ d1, Char.isDigit c = true) ∧
        (∀ c ∈ d2, Char.isDigit c = true) ∧
        m = axisWE ++ ',' :: (d1 ++ ',' :: d2)) := by
  constructor
  · intro h
    refine ⟨pattern_lookup_none h, extractOffsets_attrErrWE ?_⟩
    rw [pattern_lookup_fst, h]
  · intro m h
    exact ⟨pattern_lookup_found h, reSearch_shape axisWE s m h⟩

/-- Witness for C10 at a concrete miss and a concrete match. -/
theorem claim_C10_witness :
    (pattern_lookup axisWE (strL "empty history") = (none, [noMatchMsg]) ∧
      extractOffsets (strL "empty history") = ExtractResult.attrErrNone) ∧
    (pattern_lookup axisWE (strL "pre west_east,1,2 post") =
        (some (strL "west_east,1,2"), []) ∧
      ∃ d1 d2, d1 ≠ [] ∧ d2 ≠ [] ∧ (∀ c ∈ d1, Char.isDigit c = true) ∧
        (∀ c ∈ d2, Char.isDigit c = true) ∧
        strL "west_east,1,2" = axisWE ++ ',' :: (d1 ++ ',' :: d2)) :=
  ⟨(claim_C10_behavior (strL "empty history")).1 (by decide),
   (claim_C10_behavior (strL "pre west_east,1,2 post")).2
     (strL "west_east,1,2") (by decide)⟩
